import Mathlib

/-!
Shallow embedding of the RecruitmentBuddy Flask application (`app.py`):
input validation, personality classification, the personality-type
registry, the match engine, the session recommendations path and the
questionnaire step flow.  Numeric request values are modelled as
rationals; request-body scalars keep the Python distinction between
numbers, booleans, strings and `None`.
-/

/-- A Python scalar value as it arrives in a JSON request body.
`pyBool` is kept apart from `pyNum` because Python `bool` is a subclass
of `int`, which matters for the `isinstance(score, (int, float))` check. -/
inductive PyVal
  | pyNum (q : ℚ)
  | pyBool (b : Bool)
  | pyStr (s : String)
  | pyNone
  deriving DecidableEq, Repr

/-- Python `isinstance(v, (int, float))`: true for numbers and also for
booleans, since `bool` is a subclass of `int`. -/
def PyVal.isNumber : PyVal → Bool
  | .pyNum _ => true
  | .pyBool _ => true
  | _ => false

/-- The numeric value a Python number or boolean carries in arithmetic
and comparisons (`True == 1`, `False == 0`); other values never reach
arithmetic on the paths we model. -/
def PyVal.toQ : PyVal → ℚ
  | .pyNum q => q
  | .pyBool b => if b then 1 else 0
  | _ => 0

/-- The per-field validity test of `validate_questionnaire_input`
(app.py lines 87-90): valid iff the value passes the `isinstance`
check and is neither below 0 nor above 10. -/
def PyVal.validScore (v : PyVal) : Bool :=
  v.isNumber && !(v.toQ < 0) && !(v.toQ > 10)

/-- The four raw subscale scores of one questionnaire submission,
as used in arithmetic (after Python coercion). -/
structure RawScores where
  analytical_score : ℚ
  creative_score : ℚ
  social_score : ℚ
  technical_score : ℚ
  deriving DecidableEq, Repr

/-- EI axis of `get_personality_type` (app.py line 104). -/
def ei_score (s : RawScores) : ℚ := s.social_score / 10

/-- SN axis of `get_personality_type` (app.py line 105). -/
def sn_score (s : RawScores) : ℚ := s.creative_score / 10

/-- TF axis of `get_personality_type` (app.py line 106). -/
def tf_score (s : RawScores) : ℚ := (s.analytical_score + s.technical_score) / 20

/-- JP axis of `get_personality_type` (app.py line 107). -/
def jp_score (s : RawScores) : ℚ := (s.technical_score + s.creative_score) / 20

/-- The 4-letter code accumulation of `get_personality_type`
(app.py lines 110-114). -/
def type_code (s : RawScores) : String :=
  (if ei_score s ≥ 1/2 then "E" else "I")
    ++ (if sn_score s ≥ 1/2 then "N" else "S")
    ++ (if tf_score s ≥ 1/2 then "T" else "F")
    ++ (if jp_score s ≥ 1/2 then "P" else "J")

/-- The dictionary of continuous axis values returned alongside the code. -/
structure DimensionScores where
  ei : ℚ
  sn : ℚ
  tf : ℚ
  jp : ℚ
  deriving DecidableEq, Repr

/-- The first component of `get_personality_type`'s return value. -/
structure PersonalityType where
  code : String
  scores : DimensionScores
  deriving DecidableEq, Repr

/-- `get_personality_type` (app.py lines 94-125): returns the type code
with the dimension scores, and the dimension scores again as the second
tuple component. -/
def get_personality_type (s : RawScores) : PersonalityType × DimensionScores :=
  let dims : DimensionScores := ⟨ei_score s, sn_score s, tf_score s, jp_score s⟩
  (⟨type_code s, dims⟩, dims)

/-- sklearn `_handle_zeros_in_scale`: a per-column range of zero is
replaced by 1 before dividing. -/
def handle_zeros_in_scale (r : ℚ) : ℚ := if r = 0 then 1 else r

/-- sklearn `MinMaxScaler` (default feature range 0..1) fitted on the
rows `first :: rest`, each row having four features.  Per column `i`
the fitted transform sends `x` to
`(x - dataMin i) / handle_zeros_in_scale (dataMax i - dataMin i)`,
where `dataMin`/`dataMax` are the columnwise minima and maxima over the
fitted rows. -/
def min_max_fit_transform (first : Fin 4 → ℚ) (rest : List (Fin 4 → ℚ)) :
    List (Fin 4 → ℚ) :=
  let dataMin : Fin 4 → ℚ := fun i => rest.foldl (fun a r => min a (r i)) (first i)
  let dataMax : Fin 4 → ℚ := fun i => rest.foldl (fun a r => max a (r i)) (first i)
  (first :: rest).map
    (fun r i => (r i - dataMin i) / handle_zeros_in_scale (dataMax i - dataMin i))

/-- The `score_values` row built in `calculate_major_matches`
(app.py lines 161-166): analytical, creative, social, technical. -/
def score_values (s : RawScores) : Fin 4 → ℚ :=
  ![s.analytical_score, s.creative_score, s.social_score, s.technical_score]

/-- `normalized_scores = scaler.fit_transform(score_values)[0]`
(app.py line 167): the scaler is fitted on that single 1-by-4 row. -/
def normalized_scores (s : RawScores) : Fin 4 → ℚ :=
  (min_max_fit_transform (score_values s) []).headI

/-- Modelled from the spec (section 4.1, Score Normalizer), for
comparison with the code: min-max normalization computed across the four
dimensions of the single submitted vector, with the constant vector 1/2
when all four raw values are equal. -/
def spec_normalizer (s : RawScores) : Fin 4 → ℚ :=
  let v := score_values s
  let lo := min (min (v 0) (v 1)) (min (v 2) (v 3))
  let hi := max (max (v 0) (v 1)) (max (v 2) (v 3))
  if hi = lo then fun _ => 1/2 else fun i => (v i - lo) / (hi - lo)

/-- The worked example of the spec: analytical 8, creative 3, social 9,
technical 6. -/
def sampleScores : RawScores := ⟨8, 3, 9, 6⟩

/-- C1: the claim states that the normalization step inside
`calculate_major_matches` performs min-max normalization across the four
dimensions of the single submitted vector (minimum to 0, maximum to 1,
linear in between, constant 1/2 when all four are equal).  The code
instead fits `MinMaxScaler` on a single 1-by-4 sample, so every column's
range degenerates and the result is 0 in every component for every
input; on the spec's own example the two disagree. -/
theorem c1_normalizer_constant_zero :
    (∀ s : RawScores, ∀ i, normalized_scores s i = 0)
    ∧ spec_normalizer sampleScores 0 = 5/6
    ∧ spec_normalizer sampleScores 1 = 0
    ∧ spec_normalizer sampleScores 2 = 1
    ∧ spec_normalizer sampleScores 3 = 1/2
    ∧ normalized_scores sampleScores 2 ≠ spec_normalizer sampleScores 2
    ∧ normalized_scores ⟨7, 7, 7, 7⟩ 0 = 0
    ∧ spec_normalizer ⟨7, 7, 7, 7⟩ 0 = 1/2 := by
  have hzero : ∀ s : RawScores, ∀ i, normalized_scores s i = 0 := by
    intro s i
    simp [normalized_scores, min_max_fit_transform, handle_zeros_in_scale]
  refine ⟨hzero, ?_, ?_, ?_, ?_, ?_, hzero _ _, ?_⟩
  · norm_num [spec_normalizer, score_values, sampleScores, min_def, max_def]
  · norm_num [spec_normalizer, score_values, sampleScores, min_def, max_def]
  · norm_num [spec_normalizer, score_values, sampleScores, min_def, max_def]
  · norm_num [spec_normalizer, score_values, sampleScores, min_def, max_def]
  · rw [hzero]
    norm_num [spec_normalizer, score_values, sampleScores, min_def, max_def]
  · norm_num [spec_normalizer, score_values, min_def, max_def]

/-- C3: `get_personality_type` derives the four axis values as
EI = social/10, SN = creative/10, TF = (analytical+technical)/20,
JP = (technical+creative)/20, and builds the 4-character code by
choosing the high letter (E, N, T, P) exactly when the axis value is at
least 1/2, in the fixed order E/I, N/S, T/F, P/J; on the spec's worked
example the code is "ESTJ". -/
theorem c3_personality_classifier (s : RawScores) :
    (get_personality_type s).1.scores =
      ⟨s.social_score / 10, s.creative_score / 10,
       (s.analytical_score + s.technical_score) / 20,
       (s.technical_score + s.creative_score) / 20⟩
    ∧ (get_personality_type s).1.code.data =
      [if s.social_score / 10 ≥ 1/2 then 'E' else 'I',
       if s.creative_score / 10 ≥ 1/2 then 'N' else 'S',
       if (s.analytical_score + s.technical_score) / 20 ≥ 1/2 then 'T' else 'F',
       if (s.technical_score + s.creative_score) / 20 ≥ 1/2 then 'P' else 'J']
    ∧ (get_personality_type s).2 = (get_personality_type s).1.scores
    ∧ (get_personality_type sampleScores).1.code = "ESTJ" := by
  refine ⟨rfl, ?_, rfl, ?_⟩
  · simp only [get_personality_type, type_code, ei_score, sn_score, tf_score, jp_score]
    split_ifs <;> rfl
  · norm_num [get_personality_type, type_code, ei_score, sn_score, tf_score,
      jp_score, sampleScores]
    rfl

/-- One scores dictionary of a questionnaire submission: each of the
four required fields may be absent, and a present value is an arbitrary
request scalar. -/
structure ScoresDict where
  analytical_score : Option PyVal
  creative_score : Option PyVal
  social_score : Option PyVal
  technical_score : Option PyVal
  deriving DecidableEq, Repr

/-- The JSON body of a `/submit_questionnaire` request: the `scores`
key may be absent, and `responses` is optional (modelled opaquely). -/
structure SubmitData where
  scores : Option ScoresDict
  responses : Option String
  deriving DecidableEq, Repr

/-- The `required_fields` list of `validate_questionnaire_input`
(app.py line 81), in source order. -/
def fieldNames : List String :=
  ["analytical_score", "creative_score", "social_score", "technical_score"]

/-- Dictionary access `scores[field]` for the four known field names. -/
def getScore (d : ScoresDict) (field : String) : Option PyVal :=
  if field = "analytical_score" then d.analytical_score
  else if field = "creative_score" then d.creative_score
  else if field = "social_score" then d.social_score
  else if field = "technical_score" then d.technical_score
  else none

/-- `validate_questionnaire_input` (app.py lines 76-92): reject when the
`scores` key is absent, when one of the four required fields is absent,
and otherwise at the first field (in source order) whose value fails the
`isinstance`/range check; the raised `ValueError` message is returned. -/
def validate_questionnaire_input (data : SubmitData) : Except String Unit :=
  match data.scores with
  | none => .error ("Missing scores field in questionnaire data")
  | some d =>
      if fieldNames.all (fun f => (getScore d f).isSome) then
        match fieldNames.find? (fun f => !(((getScore d f).getD .pyNone).validScore)) with
        | some f => .error ("Invalid score for " ++ f ++ ". Must be number between 0 and 10")
        | none => .ok ()
      else .error ("Missing required fields in scores data")

/-- C10: because Python `bool` is a subclass of `int`, a submission
whose `analytical_score` is the JSON boolean `true` (read as `True = 1`)
passes `validate_questionnaire_input` instead of being rejected. -/
theorem c10_bool_score_passes_validation :
    validate_questionnaire_input
      ⟨some ⟨some (.pyBool true), some (.pyNum 5), some (.pyNum 5), some (.pyNum 5)⟩,
        none⟩ = .ok ()
    ∧ PyVal.isNumber (.pyBool true) = true
    ∧ PyVal.toQ (.pyBool true) = 1 := by
  refine ⟨?_, rfl, rfl⟩
  rfl

/-- One row of the `majors` catalog table, with the four weight columns
and the descriptive columns read by the two handlers. -/
structure Major where
  id : Nat
  name : String
  description : String
  career_opportunities : String
  required_skills : String
  careers : String
  skills : String
  analytical_weight : ℚ
  creative_weight : ℚ
  social_weight : ℚ
  technical_weight : ℚ
  deriving DecidableEq, Repr

/-- One row of the `major_personality_matches` table. -/
structure AffinityRow where
  major_id : Nat
  personality_type_id : Nat
  match_strength : ℚ
  deriving DecidableEq, Repr

/-- The lookup `SELECT match_strength FROM major_personality_matches
WHERE major_id = ? AND personality_type_id = ?` followed by `fetchone`
(app.py lines 180-184): the first matching row, if any. -/
def lookup_affinity (aff : List AffinityRow) (majorId tid : Nat) : Option ℚ :=
  (aff.find? (fun r => r.major_id == majorId && r.personality_type_id == tid)).map
    (fun r => r.match_strength)

/-- Python truthiness of an optional integer id:
`if personality_type_id:` is false for both `None` and `0`. -/
def truthyId : Option Nat → Bool
  | none => false
  | some n => n != 0

/-- One element of the `matches` list built by `calculate_major_matches`. -/
structure MatchResult where
  major_id : Nat
  name : String
  description : String
  career_opportunities : String
  required_skills : String
  match_score : ℚ
  analytical_match : ℚ
  creative_match : ℚ
  social_match : ℚ
  technical_match : ℚ
  personality_match : ℚ
  deriving DecidableEq, Repr

/-- The per-catalog-entry body of the loop in `calculate_major_matches`
(app.py lines 170-207): four dimension matches against the normalized
user vector, a personality match defaulting to 1/2, and the weighted
overall score. -/
def matchEntry (aff : List AffinityRow) (norm : Fin 4 → ℚ) (ptid : Option Nat)
    (m : Major) : MatchResult :=
  let analytical_match := 1 - |norm 0 - m.analytical_weight|
  let creative_match := 1 - |norm 1 - m.creative_weight|
  let social_match := 1 - |norm 2 - m.social_weight|
  let technical_match := 1 - |norm 3 - m.technical_weight|
  let personality_match : ℚ :=
    if truthyId ptid then (lookup_affinity aff m.id (ptid.getD 0)).getD (1/2)
    else 1/2
  let match_score :=
    (analytical_match + creative_match + social_match + technical_match) / 4 * (7/10)
      + personality_match * (3/10)
  { major_id := m.id, name := m.name, description := m.description,
    career_opportunities := m.career_opportunities,
    required_skills := m.required_skills,
    match_score := match_score,
    analytical_match := analytical_match, creative_match := creative_match,
    social_match := social_match, technical_match := technical_match,
    personality_match := personality_match }

/-- `calculate_major_matches` (app.py lines 154-211): normalize the raw
scores with a `MinMaxScaler` fitted on that single row, score every
catalog entry in catalog order, then
`matches.sort(key=lambda x: x[...], reverse=True)`, a stable descending
sort on `match_score`. -/
def calculate_major_matches (majors : List Major) (aff : List AffinityRow)
    (scores : RawScores) (ptid : Option Nat) : List MatchResult :=
  let norm := normalized_scores scores
  (majors.map (matchEntry aff norm ptid)).mergeSort
    (fun a b => decide (b.match_score ≤ a.match_score))

/-- C7: for a catalog entry whose weight vector equals the user's
normalized score vector, the four per-dimension matches computed by
`calculate_major_matches` for that entry all equal exactly 1. -/
theorem c7_equal_vectors_match_one (majors : List Major) (aff : List AffinityRow)
    (s : RawScores) (ptid : Option Nat) (m : Major) (hm : m ∈ majors)
    (h0 : m.analytical_weight = normalized_scores s 0)
    (h1 : m.creative_weight = normalized_scores s 1)
    (h2 : m.social_weight = normalized_scores s 2)
    (h3 : m.technical_weight = normalized_scores s 3) :
    ∃ e ∈ calculate_major_matches majors aff s ptid,
      e.major_id = m.id ∧ e.analytical_match = 1 ∧ e.creative_match = 1
        ∧ e.social_match = 1 ∧ e.technical_match = 1 := by
  refine ⟨matchEntry aff (normalized_scores s) ptid m, ?_, rfl, ?_, ?_, ?_, ?_⟩
  · unfold calculate_major_matches
    exact List.mem_mergeSort.mpr (List.mem_map_of_mem _ hm)
  all_goals simp [matchEntry, h0, h1, h2, h3]

/-- One row of the `personality_types` table. -/
structure PTRow where
  id : Nat
  code : String
  name : String
  description : String
  deriving DecidableEq, Repr

/-- The `personality_types` table together with the rowid sqlite will
assign to the next inserted row. -/
structure RegistryState where
  rows : List PTRow
  nextId : Nat
  deriving DecidableEq, Repr

/-- `get_personality_type_id` (app.py lines 130-152): return the id of
the first row whose `code` matches; otherwise insert a row with a
placeholder name and description and return its fresh rowid. -/
def get_personality_type_id (st : RegistryState) (code : String) :
    Nat × RegistryState :=
  match st.rows.find? (fun r => r.code == code) with
  | some r => (r.id, st)
  | none =>
      let row : PTRow := ⟨st.nextId, code, "Type " ++ code,
        "Personality type description"⟩
      (st.nextId, ⟨st.rows ++ [row], st.nextId + 1⟩)

/-- C6: `get_personality_type_id` returns the id of the existing row
when one with the code exists (leaving the table unchanged), otherwise
inserts exactly one new row with placeholder name and description and
returns its id; calling it twice in sequence returns the same id both
times and, starting from a table with no row for the code, creates
exactly one row for it in total. -/
theorem c6_registry_get_or_create (st : RegistryState) (code : String) :
    (∀ r, st.rows.find? (fun x => x.code == code) = some r →
      get_personality_type_id st code = (r.id, st))
    ∧ (st.rows.find? (fun x => x.code == code) = none →
        (get_personality_type_id st code).2.rows.length = st.rows.length + 1
          ∧ (∃ row ∈ (get_personality_type_id st code).2.rows,
              row.code = code ∧ row.id = (get_personality_type_id st code).1
                ∧ row.name = "Type " ++ code
                ∧ row.description = "Personality type description")
          ∧ (∀ x ∈ st.rows, x ∈ (get_personality_type_id st code).2.rows))
    ∧ (get_personality_type_id ((get_personality_type_id st code).2) code).1
        = (get_personality_type_id st code).1
    ∧ (st.rows.countP (fun x => x.code == code) = 0 →
        (get_personality_type_id ((get_personality_type_id st code).2) code).2.rows.countP
            (fun x => x.code == code) = 1
          ∧ (get_personality_type_id ((get_personality_type_id st code).2) code).2.rows.length
              = st.rows.length + 1) := by
  cases hfind : st.rows.find? (fun x => x.code == code) with
  | some r =>
      have hstep : get_personality_type_id st code = (r.id, st) := by
        unfold get_personality_type_id
        rw [hfind]
      refine ⟨?_, ?_, ?_, ?_⟩
      · intro r' hr'
        cases hr'
        exact hstep
      · intro hnone
        cases hnone
      · rw [hstep]
        rw [hstep]
      · intro hcount
        exfalso
        have hp := List.find?_some hfind
        have hmem := List.mem_of_find?_eq_some hfind
        exact (List.countP_eq_zero.mp hcount) r hmem hp
  | none =>
      have hstep : get_personality_type_id st code =
          (st.nextId, ⟨st.rows ++ [⟨st.nextId, code, "Type " ++ code,
            "Personality type description"⟩], st.nextId + 1⟩) := by
        unfold get_personality_type_id
        rw [hfind]
      have hrow : (fun x : PTRow => x.code == code)
          ⟨st.nextId, code, "Type " ++ code, "Personality type description"⟩ = true := by
        simp
      have hfind2 : (st.rows ++ [(⟨st.nextId, code, "Type " ++ code,
          "Personality type description"⟩ : PTRow)]).find? (fun x => x.code == code)
          = some ⟨st.nextId, code, "Type " ++ code, "Personality type description"⟩ := by
        rw [List.find?_append, hfind]
        simp
      have hstep2 : get_personality_type_id ((get_personality_type_id st code).2) code
          = (st.nextId, (get_personality_type_id st code).2) := by
        rw [hstep]
        unfold get_personality_type_id
        simp only []
        rw [hfind2]
      refine ⟨?_, ?_, ?_, ?_⟩
      · intro r' hr'
        cases hr'
      · intro _
        rw [hstep]
        refine ⟨by simp, ⟨⟨st.nextId, code, "Type " ++ code,
          "Personality type description"⟩, by simp, rfl, rfl, rfl, rfl⟩, ?_⟩
        intro x hx
        simp [hx]
      · rw [hstep2, hstep]
      · intro hcount
        rw [hstep2, hstep]
        constructor
        · simp [List.countP_append, List.countP_cons, hcount]
        · simp

/-- C2: for every catalog entry, the match-engine output contains an
entry whose four dimension matches are 1 minus the absolute difference
between the normalized user value and the catalog weight, whose overall
score is 0.7 times the average of the four dimension matches plus 0.3
times the personality match, and whose personality match is the
looked-up affinity strength when a (major, personality-type) row exists,
1/2 when no row exists, and 1/2 for every entry when the personality
type id is omitted. -/
theorem c2_match_engine_entry_formulas (majors : List Major) (aff : List AffinityRow)
    (s : RawScores) (ptid : Option Nat) (m : Major) (hm : m ∈ majors) :
    ∃ e ∈ calculate_major_matches majors aff s ptid,
      e.major_id = m.id
      ∧ e.analytical_match = 1 - |normalized_scores s 0 - m.analytical_weight|
      ∧ e.creative_match = 1 - |normalized_scores s 1 - m.creative_weight|
      ∧ e.social_match = 1 - |normalized_scores s 2 - m.social_weight|
      ∧ e.technical_match = 1 - |normalized_scores s 3 - m.technical_weight|
      ∧ e.match_score = 7/10 * ((e.analytical_match + e.creative_match
          + e.social_match + e.technical_match) / 4) + 3/10 * e.personality_match
      ∧ (ptid = none → e.personality_match = 1/2)
      ∧ (∀ tid, ptid = some tid → 0 < tid →
          (lookup_affinity aff m.id tid = none → e.personality_match = 1/2)
          ∧ (∀ q, lookup_affinity aff m.id tid = some q → e.personality_match = q)) := by
  refine ⟨matchEntry aff (normalized_scores s) ptid m, ?_, rfl, rfl, rfl, rfl, rfl,
    ?_, ?_, ?_⟩
  · unfold calculate_major_matches
    exact List.mem_mergeSort.mpr (List.mem_map_of_mem _ hm)
  · simp only [matchEntry]
    ring
  · intro h
    subst h
    simp [matchEntry, truthyId]
  · intro tid h htid
    subst h
    have ht : truthyId (some tid) = true := by
      simp only [truthyId, ne_eq, bne_iff_ne]
      omega
    constructor
    · intro hl
      simp [matchEntry, ht, hl]
    · intro q hl
      simp [matchEntry, ht, hl]

/-- A sample catalog entry used to instantiate the universally
quantified match-engine theorems. -/
def witnessMajor : Major :=
  ⟨1, "Computer Science", "d", "c", "r", "cs", "sk", 7/10, 2/5, 3/10, 4/5⟩

/-- A sample affinity row for `witnessMajor` and personality type 5. -/
def witnessAffinity : AffinityRow := ⟨1, 5, 9/10⟩

/-- Witness for C2 at a concrete catalog, affinity table, score vector
and personality type id. -/
theorem c2_match_engine_entry_formulas_witness :
    ∃ e ∈ calculate_major_matches [witnessMajor] [witnessAffinity] sampleScores (some 5),
      e.major_id = witnessMajor.id
      ∧ e.analytical_match = 1 - |normalized_scores sampleScores 0 - witnessMajor.analytical_weight|
      ∧ e.creative_match = 1 - |normalized_scores sampleScores 1 - witnessMajor.creative_weight|
      ∧ e.social_match = 1 - |normalized_scores sampleScores 2 - witnessMajor.social_weight|
      ∧ e.technical_match = 1 - |normalized_scores sampleScores 3 - witnessMajor.technical_weight|
      ∧ e.match_score = 7/10 * ((e.analytical_match + e.creative_match
          + e.social_match + e.technical_match) / 4) + 3/10 * e.personality_match
      ∧ (some 5 = (none : Option Nat) → e.personality_match = 1/2)
      ∧ (∀ tid, (some 5 : Option Nat) = some tid → 0 < tid →
          (lookup_affinity [witnessAffinity] witnessMajor.id tid = none →
            e.personality_match = 1/2)
          ∧ (∀ q, lookup_affinity [witnessAffinity] witnessMajor.id tid = some q →
              e.personality_match = q)) :=
  c2_match_engine_entry_formulas [witnessMajor] [witnessAffinity] sampleScores (some 5)
    witnessMajor (by simp)

/-- C4: the match-engine result has one entry per catalog entry, is
sorted non-increasing on the overall score, leaves tied runs of entries
in catalog order (stability of the sort), and is empty (not an error)
exactly on the empty catalog. -/
theorem c4_results_cover_and_sorted (majors : List Major) (aff : List AffinityRow)
    (s : RawScores) (ptid : Option Nat) :
    (calculate_major_matches majors aff s ptid).length = majors.length
    ∧ (calculate_major_matches majors aff s ptid).Pairwise
        (fun a b => b.match_score ≤ a.match_score)
    ∧ (∀ c : List MatchResult,
        c.Sublist (majors.map (matchEntry aff (normalized_scores s) ptid)) →
        c.Pairwise (fun a b => a.match_score = b.match_score) →
        c.Sublist (calculate_major_matches majors aff s ptid))
    ∧ (majors = [] → calculate_major_matches majors aff s ptid = []) := by
  have htrans : ∀ a b c : MatchResult,
      decide (b.match_score ≤ a.match_score) = true →
      decide (c.match_score ≤ b.match_score) = true →
      decide (c.match_score ≤ a.match_score) = true := by
    intro a b c h1 h2
    simp only [decide_eq_true_eq] at *
    exact le_trans h2 h1
  have htotal : ∀ a b : MatchResult,
      (decide (b.match_score ≤ a.match_score)
        || decide (a.match_score ≤ b.match_score)) = true := by
    intro a b
    simp only [Bool.or_eq_true, decide_eq_true_eq]
    exact le_total b.match_score a.match_score
  refine ⟨?_, ?_, ?_, ?_⟩
  · simp [calculate_major_matches]
  · have h := List.sorted_mergeSort htrans htotal
      (majors.map (matchEntry aff (normalized_scores s) ptid))
    exact List.Pairwise.imp (fun hab => by simpa using hab) h
  · intro c hsub hpair
    unfold calculate_major_matches
    refine List.sublist_mergeSort htrans htotal ?_ hsub
    exact List.Pairwise.imp (fun hab => by simp [hab]) hpair
  · intro h
    subst h
    simp [calculate_major_matches]

/-- Witness for C4: the empty catalog yields the empty result list, and
the stability clause applies to the empty tied run. -/
theorem c4_results_cover_and_sorted_witness :
    calculate_major_matches [] [] sampleScores none = []
    ∧ ([] : List MatchResult).Sublist (calculate_major_matches [] [] sampleScores none) :=
  ⟨(c4_results_cover_and_sorted [] [] sampleScores none).2.2.2 rfl,
   (c4_results_cover_and_sorted [] [] sampleScores none).2.2.1 []
     (List.nil_sublist _) List.Pairwise.nil⟩

/-- One row of the `questionnaire_responses` table, storing the raw
submitted score values (app.py lines 295-307). -/
structure RespRow where
  id : Nat
  analytical_score : PyVal
  creative_score : PyVal
  social_score : PyVal
  technical_score : PyVal
  personality_type_id : Nat
  raw_responses : Option String
  deriving DecidableEq, Repr

/-- One row of the `major_recommendations` table (app.py lines 313-329). -/
structure RecRow where
  response_id : Nat
  major_id : Nat
  match_score : ℚ
  analytical_match : ℚ
  creative_match : ℚ
  social_match : ℚ
  technical_match : ℚ
  personality_match : ℚ
  deriving DecidableEq, Repr

/-- The store as seen by `/submit_questionnaire`: the personality-type
registry, the response and recommendation tables each with the next
sqlite rowid, and the static majors catalog with its affinity table. -/
structure DB where
  registry : RegistryState
  responses : List RespRow
  respNextId : Nat
  major_recommendations : List RecRow
  majors : List Major
  affinities : List AffinityRow
  deriving DecidableEq, Repr

/-- Numeric view of a validated scores dictionary, as used by the
classifier and match engine (Python arithmetic reads a boolean as 0
or 1; validation guarantees the fields are present and numeric). -/
def ScoresDict.toRawScores (d : ScoresDict) : RawScores :=
  ⟨(d.analytical_score.getD .pyNone).toQ, (d.creative_score.getD .pyNone).toQ,
   (d.social_score.getD .pyNone).toQ, (d.technical_score.getD .pyNone).toQ⟩

/-- The JSON reply of `/submit_questionnaire` with its HTTP status
(Flask's default status for a plain `jsonify` reply is 200). -/
inductive SubmitResponse
  | success (response_id : Nat)
  | error (message : String) (status : Nat)
  deriving DecidableEq, Repr

/-- The HTTP status carried by a reply. -/
def SubmitResponse.statusCode : SubmitResponse → Nat
  | .success _ => 200
  | .error _ s => s

/-- `submit_questionnaire` (app.py lines 280-339): validate, derive and
resolve the personality type, insert the questionnaire-response row,
compute the matches and insert one recommendation row per match, then
reply with the fresh response id.  A `ValueError` raised by validation
is caught and turned into a status-500 JSON error reply carrying the
message, before anything is written to the store. -/
def submit_questionnaire (db : DB) (data : SubmitData) : SubmitResponse × DB :=
  match validate_questionnaire_input data with
  | .error msg => (.error msg 500, db)
  | .ok _ =>
      let d := data.scores.getD ⟨none, none, none, none⟩
      let raw := d.toRawScores
      let pt := (get_personality_type raw).1
      let res := get_personality_type_id db.registry pt.code
      let respId := db.respNextId
      let resp : RespRow := ⟨respId, d.analytical_score.getD .pyNone,
        d.creative_score.getD .pyNone, d.social_score.getD .pyNone,
        d.technical_score.getD .pyNone, res.1, data.responses⟩
      let found := calculate_major_matches db.majors db.affinities raw (some res.1)
      let recs := found.map (fun mt => RecRow.mk respId mt.major_id mt.match_score
        mt.analytical_match mt.creative_match mt.social_match mt.technical_match
        mt.personality_match)
      (.success respId,
        { db with
          registry := res.2,
          responses := db.responses ++ [resp],
          respNextId := respId + 1,
          major_recommendations := db.major_recommendations ++ recs })

/-- If validation succeeds then the scores key and all four fields are
present and every present value passes the per-field check. -/
theorem validate_ok_all_fields (data : SubmitData)
    (hok : validate_questionnaire_input data = .ok ()) :
    ∃ d, data.scores = some d
      ∧ (∀ f ∈ fieldNames, (getScore d f).isSome = true)
      ∧ (∀ f ∈ fieldNames, ((getScore d f).getD .pyNone).validScore = true) := by
  unfold validate_questionnaire_input at hok
  cases hs : data.scores with
  | none =>
      rw [hs] at hok
      cases hok
  | some d =>
      rw [hs] at hok
      dsimp only at hok
      by_cases hall : fieldNames.all (fun f => (getScore d f).isSome) = true
      · rw [if_pos hall] at hok
        cases hfind : fieldNames.find?
            (fun f => !(((getScore d f).getD .pyNone).validScore)) with
        | some f =>
            rw [hfind] at hok
            cases hok
        | none =>
            refine ⟨d, rfl, List.all_eq_true.mp hall, ?_⟩
            intro f hf
            have hnf := List.find?_eq_none.mp hfind f hf
            simpa using hnf
      · rw [if_neg hall] at hok
        cases hok

/-- C5 (amended): a submission missing one of the four score fields, or
carrying a numeric score outside 0..10, is rejected with a structured
error reply carrying a message — surfaced with HTTP status 500, not a
4xx status — and the rejection is atomic: the store is returned
unchanged, so no questionnaire-response row and no recommendation rows
are written. -/
theorem c5_validation_rejection_atomic (db : DB) (data : SubmitData)
    (h : data.scores = none
      ∨ (∃ d, data.scores = some d
          ∧ (d.analytical_score = none ∨ d.creative_score = none
              ∨ d.social_score = none ∨ d.technical_score = none))
      ∨ (∃ d f q, data.scores = some d ∧ f ∈ fieldNames
          ∧ getScore d f = some (.pyNum q) ∧ (q < 0 ∨ 10 < q))) :
    ∃ msg, submit_questionnaire db data = (.error msg 500, db) := by
  cases hv : validate_questionnaire_input data with
  | error msg =>
      refine ⟨msg, ?_⟩
      unfold submit_questionnaire
      rw [hv]
  | ok u =>
      exfalso
      obtain ⟨d, hd, hpresent, hvalid⟩ := validate_ok_all_fields data (by rw [hv])
      rcases h with hnone | ⟨d', hd', hmiss⟩ | ⟨d', f, q, hd', hf, hg, hrange⟩
      · rw [hnone] at hd
        cases hd
      · rw [hd'] at hd
        cases hd
        rcases hmiss with h1 | h1 | h1 | h1
        · have h2 := hpresent "analytical_score" (by simp [fieldNames])
          rw [show getScore d "analytical_score" = d.analytical_score from rfl, h1] at h2
          cases h2
        · have h2 := hpresent "creative_score" (by simp [fieldNames])
          rw [show getScore d "creative_score" = d.creative_score from rfl, h1] at h2
          cases h2
        · have h2 := hpresent "social_score" (by simp [fieldNames])
          rw [show getScore d "social_score" = d.social_score from rfl, h1] at h2
          cases h2
        · have h2 := hpresent "technical_score" (by simp [fieldNames])
          rw [show getScore d "technical_score" = d.technical_score from rfl, h1] at h2
          cases h2
      · rw [hd'] at hd
        cases hd
        have h2 := hvalid f hf
        rw [hg] at h2
        simp only [Option.getD_some, PyVal.validScore, PyVal.isNumber, PyVal.toQ,
          Bool.and_eq_true, Bool.not_eq_true', decide_eq_false_iff_not] at h2
        rcases hrange with hr | hr
        · exact h2.1.2 hr
        · exact h2.2 hr

/-- An empty store for instantiating the submission theorems. -/
def sampleDB : DB := ⟨⟨[], 1⟩, [], 1, [], [], []⟩

/-- The spec's end-to-end rejection example: `technical_score: 11`. -/
def badData : SubmitData :=
  ⟨some ⟨some (.pyNum 8), some (.pyNum 3), some (.pyNum 9), some (.pyNum 11)⟩, none⟩

/-- Counterexample to C5 as stated: the out-of-range submission is
rejected and nothing is stored, but the structured error reply carries
HTTP status 500, which is not a 4xx-style status. -/
theorem c5_counterexample_status_500 :
    (submit_questionnaire sampleDB badData).1
        = .error ("Invalid score for technical_score. Must be number between 0 and 10") 500
    ∧ (submit_questionnaire sampleDB badData).2 = sampleDB
    ∧ ¬(400 ≤ (submit_questionnaire sampleDB badData).1.statusCode
        ∧ (submit_questionnaire sampleDB badData).1.statusCode < 500) := by
  refine ⟨rfl, rfl, ?_⟩
  intro hcon
  have h5 : (submit_questionnaire sampleDB badData).1.statusCode = 500 := rfl
  rw [h5] at hcon
  omega

/-- A submission with the analytical score field absent. -/
def missingFieldData : SubmitData :=
  ⟨some ⟨none, some (.pyNum 3), some (.pyNum 9), some (.pyNum 6)⟩, none⟩

/-- Witness for C5 at a concrete store and invalid submission. -/
theorem c5_validation_rejection_atomic_witness :
    ∃ msg, submit_questionnaire sampleDB missingFieldData = (.error msg 500, sampleDB) :=
  c5_validation_rejection_atomic sampleDB missingFieldData
    (Or.inr (Or.inl ⟨⟨none, some (.pyNum 3), some (.pyNum 9), some (.pyNum 6)⟩,
      rfl, Or.inl rfl⟩))

/-- Witness for C6: two sequential resolutions of a fresh code on an
empty registry return the same id and leave exactly one row with it. -/
theorem c6_registry_get_or_create_witness :
    (get_personality_type_id ((get_personality_type_id ⟨[], 1⟩ "ESTJ").2) "ESTJ").1
        = (get_personality_type_id ⟨[], 1⟩ "ESTJ").1
    ∧ (get_personality_type_id ((get_personality_type_id ⟨[], 1⟩ "ESTJ").2) "ESTJ").2.rows.countP
          (fun x => x.code == "ESTJ") = 1 :=
  ⟨(c6_registry_get_or_create ⟨[], 1⟩ "ESTJ").2.2.1,
   ((c6_registry_get_or_create ⟨[], 1⟩ "ESTJ").2.2.2 rfl).1⟩

/-- A catalog entry whose weight vector is the zero vector, which is
what the code's normalizer produces for every submission. -/
def zeroMajor : Major := ⟨2, "Undeclared", "d", "c", "r", "cs", "sk", 0, 0, 0, 0⟩

/-- Witness for C7 at a concrete catalog whose entry's weights equal the
user's normalized vector. -/
theorem c7_equal_vectors_match_one_witness :
    ∃ e ∈ calculate_major_matches [zeroMajor] [] sampleScores none,
      e.major_id = zeroMajor.id ∧ e.analytical_match = 1 ∧ e.creative_match = 1
        ∧ e.social_match = 1 ∧ e.technical_match = 1 :=
  c7_equal_vectors_match_one [zeroMajor] [] sampleScores none zeroMajor (by simp)
    (by simp [zeroMajor, normalized_scores, min_max_fit_transform, handle_zeros_in_scale])
    (by simp [zeroMajor, normalized_scores, min_max_fit_transform, handle_zeros_in_scale])
    (by simp [zeroMajor, normalized_scores, min_max_fit_transform, handle_zeros_in_scale])
    (by simp [zeroMajor, normalized_scores, min_max_fit_transform, handle_zeros_in_scale])

/-- Python 3 `round` to an integer: round half to even. -/
def pyRound (q : ℚ) : ℤ :=
  if q - ⌊q⌋ < 1/2 then ⌊q⌋
  else if 1/2 < q - ⌊q⌋ then ⌊q⌋ + 1
  else if ⌊q⌋ % 2 = 0 then ⌊q⌋ else ⌊q⌋ + 1

/-- One entry of the majors list rendered by `/recommendations`
(app.py lines 362-384). -/
structure DisplayMajor where
  name : String
  description : String
  careers : List String
  skills : List String
  match_percentage : ℤ
  analytical_weight : ℚ
  creative_weight : ℚ
  social_weight : ℚ
  technical_weight : ℚ
  deriving DecidableEq, Repr

/-- The per-major computation of the `/recommendations` handler
(app.py lines 363-384): per dimension `100 - |rawUserValue - 10*weight|`,
averaged unweighted over the four dimensions, rounded with Python
`round`, with no personality term. -/
def session_major_entry (u : RawScores) (m : Major) : DisplayMajor :=
  let analytical_match := 100 - |u.analytical_score - m.analytical_weight * 10|
  let creative_match := 100 - |u.creative_score - m.creative_weight * 10|
  let social_match := 100 - |u.social_score - m.social_weight * 10|
  let technical_match := 100 - |u.technical_score - m.technical_weight * 10|
  let match_percentage :=
    (analytical_match + creative_match + social_match + technical_match) / 4
  { name := m.name, description := m.description,
    careers := m.careers.splitOn ",", skills := m.skills.splitOn ",",
    match_percentage := pyRound match_percentage,
    analytical_weight := m.analytical_weight, creative_weight := m.creative_weight,
    social_weight := m.social_weight, technical_weight := m.technical_weight }

/-- The list rendered by `/recommendations` (app.py lines 362-394):
one display entry per catalog entry, stably sorted descending on the
rounded match percentage, then cut to the top 3. -/
def recommendations_top_majors (u : RawScores) (catalog : List Major) :
    List DisplayMajor :=
  ((catalog.map (session_major_entry u)).mergeSort
    (fun a b => decide (b.match_percentage ≤ a.match_percentage))).take 3

/-- A catalog entry with all four weights 1/2, used to exhibit the
difference between the two match computations. -/
def halfMajor : Major := ⟨3, "General Studies", "d", "c", "r", "cs", "sk",
  1/2, 1/2, 1/2, 1/2⟩

/-- C8: the session-display path computes, per major, a 0-100 match
using `100 - |raw session score - 10*weight|` per dimension, averaged
unweighted with no personality term (then rounded), sorts the majors
non-increasingly by this percentage and renders only the top 3; and at a
concrete input this computation differs from the persisted flow's 0-1
`match_score` even after rescaling by 100. -/
theorem c8_session_recommendations (u : RawScores) (catalog : List Major) :
    (recommendations_top_majors u catalog).length = min 3 catalog.length
    ∧ (recommendations_top_majors u catalog).Pairwise
        (fun a b => b.match_percentage ≤ a.match_percentage)
    ∧ (∀ e ∈ recommendations_top_majors u catalog, ∃ m ∈ catalog,
        e.name = m.name
        ∧ e.match_percentage = pyRound
            (((100 - |u.analytical_score - m.analytical_weight * 10|)
              + (100 - |u.creative_score - m.creative_weight * 10|)
              + (100 - |u.social_score - m.social_weight * 10|)
              + (100 - |u.technical_score - m.technical_weight * 10|)) / 4))
    ∧ ((session_major_entry ⟨5, 5, 5, 5⟩ halfMajor).match_percentage : ℚ)
        ≠ 100 * (matchEntry [] (normalized_scores ⟨5, 5, 5, 5⟩) none halfMajor).match_score := by
  have htrans : ∀ a b c : DisplayMajor,
      decide (b.match_percentage ≤ a.match_percentage) = true →
      decide (c.match_percentage ≤ b.match_percentage) = true →
      decide (c.match_percentage ≤ a.match_percentage) = true := by
    intro a b c h1 h2
    simp only [decide_eq_true_eq] at *
    exact le_trans h2 h1
  have htotal : ∀ a b : DisplayMajor,
      (decide (b.match_percentage ≤ a.match_percentage)
        || decide (a.match_percentage ≤ b.match_percentage)) = true := by
    intro a b
    simp only [Bool.or_eq_true, decide_eq_true_eq]
    exact le_total b.match_percentage a.match_percentage
  refine ⟨?_, ?_, ?_, ?_⟩
  · simp [recommendations_top_majors]
  · have h := List.sorted_mergeSort htrans htotal (catalog.map (session_major_entry u))
    have h2 := List.Pairwise.sublist (List.take_sublist 3 _) h
    exact List.Pairwise.imp (fun hab => by simpa using hab) h2
  · intro e he
    have he2 : e ∈ (catalog.map (session_major_entry u)).mergeSort
        (fun a b => decide (b.match_percentage ≤ a.match_percentage)) :=
      List.mem_of_mem_take he
    obtain ⟨m, hm, hme⟩ := List.mem_map.mp (List.mem_mergeSort.mp he2)
    subst hme
    exact ⟨m, hm, rfl, rfl⟩
  · have hsession : (session_major_entry ⟨5, 5, 5, 5⟩ halfMajor).match_percentage = 100 := by
      norm_num [session_major_entry, halfMajor, pyRound]
    have hmatch : (matchEntry [] (normalized_scores ⟨5, 5, 5, 5⟩) none halfMajor).match_score
        = 1/2 := by
      have hn : ∀ i, normalized_scores ⟨5, 5, 5, 5⟩ i = 0 := by
        intro i
        simp [normalized_scores, min_max_fit_transform, handle_zeros_in_scale]
      norm_num [matchEntry, truthyId, halfMajor, hn]
      rw [abs_of_pos (show (0:ℚ) < 1/2 by norm_num)]
      norm_num
    rw [hsession, hmatch]
    norm_num

/-- Witness for C8: the single-entry catalog's rendered entry carries
the session-path percentage of its major. -/
theorem c8_session_recommendations_witness :
    ∃ m ∈ [witnessMajor],
      (session_major_entry sampleScores witnessMajor).name = m.name
      ∧ (session_major_entry sampleScores witnessMajor).match_percentage = pyRound
          (((100 - |sampleScores.analytical_score - m.analytical_weight * 10|)
            + (100 - |sampleScores.creative_score - m.creative_weight * 10|)
            + (100 - |sampleScores.social_score - m.social_weight * 10|)
            + (100 - |sampleScores.technical_score - m.technical_weight * 10|)) / 4) :=
  (c8_session_recommendations sampleScores [witnessMajor]).2.2.1
    (session_major_entry sampleScores witnessMajor)
    (by simp [recommendations_top_majors])

/-- The session accumulator `session['questionnaire_responses']`: one
optional stored value per step field. -/
structure QResponses where
  analytical : Option PyVal
  creative : Option PyVal
  social : Option PyVal
  technical : Option PyVal
  deriving DecidableEq, Repr

/-- The session state read by `/questionnaire/next`: the authenticated
user id and the accumulator, each possibly absent. -/
structure QSession where
  user_id : Option Nat
  questionnaire_responses : Option QResponses
  deriving DecidableEq, Repr

/-- The JSON body of a `/questionnaire/next` request: the `step` value
and the per-step answer fields, each possibly absent. -/
structure NextData where
  step : Option PyVal
  analytical : Option PyVal
  creative : Option PyVal
  social : Option PyVal
  technical : Option PyVal
  deriving DecidableEq, Repr

/-- The redirect target carried in the handler's JSON reply. -/
inductive Redirect
  | loginPage
  | questionnaireStep (n : Nat)
  | recommendationsPage
  deriving DecidableEq, Repr

/-- Python `v == n` for an optional JSON value against an int literal:
numbers and booleans compare by numeric value, everything else (absent,
strings, `None`) is unequal. -/
def pyEqNum (v : Option PyVal) (n : ℚ) : Bool :=
  match v with
  | some (.pyNum q) => q == n
  | some (.pyBool b) => (if b then (1 : ℚ) else 0) == n
  | _ => false

/-- `questionnaire_next` (app.py lines 253-278): bounce to login when
the session has no truthy user id; otherwise initialise the accumulator
if falsy, store the submitted value under the current step's named field
and reply with a redirect to step N+1 (or to the recommendations page
at step 4); any other step value falls through and returns no reply. -/
def questionnaire_next (sess : QSession) (data : NextData) :
    QSession × Option Redirect :=
  if !(truthyId sess.user_id) then (sess, some .loginPage)
  else
    let r0 := sess.questionnaire_responses.getD ⟨none, none, none, none⟩
    if pyEqNum data.step 1 then
      ({ sess with questionnaire_responses := some ({ r0 with analytical := data.analytical }) },
        some (.questionnaireStep 2))
    else if pyEqNum data.step 2 then
      ({ sess with questionnaire_responses := some ({ r0 with creative := data.creative }) },
        some (.questionnaireStep 3))
    else if pyEqNum data.step 3 then
      ({ sess with questionnaire_responses := some ({ r0 with social := data.social }) },
        some (.questionnaireStep 4))
    else if pyEqNum data.step 4 then
      ({ sess with questionnaire_responses := some ({ r0 with technical := data.technical }) },
        some .recommendationsPage)
    else ({ sess with questionnaire_responses := some r0 }, none)

/-- C9: for an authenticated session, a POST with step N (1-4) stores
the submitted value under the step's named field of the accumulator
(leaving the other fields unchanged) and redirects to step N+1, with
step 4 redirecting to the recommendations page (Complete); whenever the
reply redirects to a questionnaire step, that step is the successor of
the submitted one, so no backward transition occurs. -/
theorem c9_questionnaire_step_flow (sess : QSession) (data : NextData) (uid : Nat)
    (hu : sess.user_id = some uid) (hu0 : uid ≠ 0) :
    (data.step = some (.pyNum 1) →
      questionnaire_next sess data =
        ({ sess with
            questionnaire_responses := some
              ({ sess.questionnaire_responses.getD ⟨none, none, none, none⟩ with
                  analytical := data.analytical }) },
          some (.questionnaireStep 2)))
    ∧ (data.step = some (.pyNum 2) →
      questionnaire_next sess data =
        ({ sess with
            questionnaire_responses := some
              ({ sess.questionnaire_responses.getD ⟨none, none, none, none⟩ with
                  creative := data.creative }) },
          some (.questionnaireStep 3)))
    ∧ (data.step = some (.pyNum 3) →
      questionnaire_next sess data =
        ({ sess with
            questionnaire_responses := some
              ({ sess.questionnaire_responses.getD ⟨none, none, none, none⟩ with
                  social := data.social }) },
          some (.questionnaireStep 4)))
    ∧ (data.step = some (.pyNum 4) →
      questionnaire_next sess data =
        ({ sess with
            questionnaire_responses := some
              ({ sess.questionnaire_responses.getD ⟨none, none, none, none⟩ with
                  technical := data.technical }) },
          some .recommendationsPage))
    ∧ (∀ q k, data.step = some (.pyNum q) →
        (questionnaire_next sess data).2 = some (.questionnaireStep k) →
        (q = 1 ∧ k = 2) ∨ (q = 2 ∧ k = 3) ∨ (q = 3 ∧ k = 4)) := by
  have ht : truthyId sess.user_id = true := by
    rw [hu]
    simpa [truthyId] using hu0
  refine ⟨?_, ?_, ?_, ?_, ?_⟩
  · intro h
    norm_num [questionnaire_next, ht, h, pyEqNum]
  · intro h
    norm_num [questionnaire_next, ht, h, pyEqNum]
  · intro h
    norm_num [questionnaire_next, ht, h, pyEqNum]
  · intro h
    norm_num [questionnaire_next, ht, h, pyEqNum]
  · intro q k h hred
    by_cases h1 : q = 1
    · subst h1
      norm_num [questionnaire_next, ht, h, pyEqNum] at hred
      exact Or.inl ⟨rfl, hred.symm⟩
    · by_cases h2 : q = 2
      · subst h2
        norm_num [questionnaire_next, ht, h, pyEqNum] at hred
        exact Or.inr (Or.inl ⟨rfl, hred.symm⟩)
      · by_cases h3 : q = 3
        · subst h3
          norm_num [questionnaire_next, ht, h, pyEqNum] at hred
          exact Or.inr (Or.inr ⟨rfl, hred.symm⟩)
        · by_cases h4 : q = 4
          · subst h4
            norm_num [questionnaire_next, ht, h, pyEqNum] at hred
            cases hred
          · norm_num [questionnaire_next, ht, h, pyEqNum, h1, h2, h3, h4] at hred
            cases hred

/-- A logged-in session with no accumulator yet. -/
def startSession : QSession := ⟨some 7, none⟩

/-- A step-1 request body carrying the analytical answer 8. -/
def stepOneData : NextData := ⟨some (.pyNum 1), some (.pyNum 8), none, none, none⟩

/-- Witness for C9: the concrete step-1 request stores the analytical
answer and redirects to step 2. -/
theorem c9_questionnaire_step_flow_witness :
    questionnaire_next startSession stepOneData =
      ({ startSession with
          questionnaire_responses := some
            ({ startSession.questionnaire_responses.getD ⟨none, none, none, none⟩ with
                analytical := stepOneData.analytical }) },
        some (.questionnaireStep 2)) :=
  (c9_questionnaire_step_flow startSession stepOneData 7 rfl (by decide)).1 rfl
